import Mathlib

/-!
Verification development for the gravitas thermal-index pipeline
(`backend/app/lib/earth_engine/{imagery,calculations,visualization}.py` and
`backend/app/config/constants.py`).

Raster images are shallowly embedded as association lists of named bands; a
band is a list of per-pixel values, where `none` is the engine's no-data
(masked) sentinel.  Pixel values are rationals (the source's floats are a
subset of the rationals); the Land Surface Temperature stage, which applies a
natural logarithm, produces real-valued pixels.  The remote Earth Engine
raster-algebra capability is an external collaborator of the repository; its
per-pixel operations (normalized difference, division, logarithm, median,
region reduction) are modelled from the spec where their behaviour decides a
property, and each such definition is marked `Modelled from the spec:`.
-/

/-- A band: one optional value per pixel; `none` is the no-data sentinel. -/
abbrev Band := List (Option ℚ)

/-- A multi-band raster image: named bands over a common pixel grid. -/
abbrev EEImage := List (String × Band)

/-- A real-valued band (used by the logarithm-based LST stage). -/
abbrev RBand := List (Option ℝ)

/-- A real-valued raster image. -/
abbrev RImage := List (String × RBand)

/-- The error payload used throughout the backend: a short machine-readable
`error` string and a human diagnostic `detail` string, mirroring the
`{"error": ..., "detail": ...}` dictionaries of the source. -/
structure ErrorDict where
  error : String
  detail : String
deriving DecidableEq, Repr

/-- First-match association-list lookup on band or layer names. -/
def assocLookup {α : Type} (name : String) : List (String × α) → Option α
  | [] => none
  | (k, v) :: rest => if k = name then some v else assocLookup name rest

/-- Band of an image by name; a missing band reads as an empty band. -/
def getBand (name : String) (img : EEImage) : Band :=
  (assocLookup name img).getD []

/-- Band of a real-valued image by name. -/
def getRBand (name : String) (img : RImage) : RBand :=
  (assocLookup name img).getD []

/-! ### Constants (`app/config/constants.py`) -/

def SCALE : ℕ := 30

def MAX_PIXELS : ℕ := 1000000000

def CLOUD_SHADOW_BIT_MASK : ℕ := 1 <<< 3

def CLOUDS_BIT_MASK : ℕ := 1 <<< 5

def OPTICAL_BANDS_MULTIPLIER : ℚ := 0.0000275

def OPTICAL_BANDS_OFFSET : ℚ := -0.2

def THERMAL_BANDS_MULTIPLIER : ℚ := 0.00341802

def THERMAL_BANDS_OFFSET : ℚ := 149.0

def NDVI_MIN : ℚ := -1

def NDVI_MAX : ℚ := 1

def NDVI_PALETTE : List String := ["blue", "white", "green"]

def LST_MIN : ℚ := 7

def LST_MAX : ℚ := 50

def LST_PALETTE : List String :=
  ["040274", "040281", "0502a3", "0502b8", "0502ce", "0502e6", "0602ff",
   "235cb1", "307ef3", "269db1", "30c8e2", "32d3ef", "3be285", "3ff38f",
   "86e26f", "3ae237", "b5e22e", "d6e21f", "fff705", "ffd611", "ffb613",
   "ff8b13", "ff6e08", "ff500d", "ff0000", "de0101", "c21301", "a71001",
   "911003"]

def UHI_MIN : ℚ := -4

def UHI_MAX : ℚ := 4

def UHI_PALETTE : List String :=
  ["313695", "74add1", "fed976", "feb24c", "fd8d3c", "fc4e2a", "e31a1c",
   "b10026"]

def UTFVI_MIN : ℚ := -1

def UTFVI_MAX : ℚ := 0.3

def UTFVI_PALETTE : List String :=
  ["313695", "74add1", "fed976", "feb24c", "fd8d3c", "fc4e2a", "e31a1c",
   "b10026"]

def FV_POWER : ℕ := 2

def EM_MULTIPLIER : ℚ := 0.004

def EM_OFFSET : ℚ := 0.986

def LST_WAVELENGTH : ℝ := 11.5

def LST_CONSTANT : ℝ := 14380

def KELVIN_TO_CELSIUS : ℝ := 273.15

/-! ### Composite builder (`app/lib/earth_engine/imagery.py`) -/

/-- The band-name pattern used by `image.select("SR_B.*")` /
`image.select("ST_B.*")`: the regex is anchored at the start and ends in
`.*`, so it selects exactly the bands whose name starts with the given
stem. -/
def matchesPat (stem name : String) : Bool :=
  stem.data.isPrefixOf name.data

/-- Bands of an image whose name matches a `select` pattern. -/
def selectMatching (stem : String) (img : EEImage) : EEImage :=
  img.filter (fun b => matchesPat stem b.1)

/-- Apply a per-pixel arithmetic function to every band of an image
(no-data pixels propagate). -/
def imageMapPixels (f : ℚ → ℚ) (img : EEImage) : EEImage :=
  img.map (fun b => (b.1, b.2.map (Option.map f)))

/-- `image.addBands(new, None, True)`: bands of `new` replace the bands of
`base` with the same name, in place; bands of `new` absent from `base` are
appended. -/
def addBandsOverwrite (base new : EEImage) : EEImage :=
  (base.map (fun b =>
    match assocLookup b.1 new with
    | some nb => (b.1, nb)
    | none => b))
  ++ new.filter (fun b => (assocLookup b.1 base).isNone)

/-- `apply_scale_factors` (imagery.py): rescale the optical (`SR_B.*`) bands
by `OPTICAL_BANDS_MULTIPLIER`/`OPTICAL_BANDS_OFFSET` and the thermal
(`ST_B.*`) bands by `THERMAL_BANDS_MULTIPLIER`/`THERMAL_BANDS_OFFSET`,
overwriting them in place. -/
def apply_scale_factors (image : EEImage) : EEImage :=
  let optical_bands :=
    imageMapPixels (fun v => v * OPTICAL_BANDS_MULTIPLIER + OPTICAL_BANDS_OFFSET)
      (selectMatching "SR_B" image)
  let thermal_bands :=
    imageMapPixels (fun v => v * THERMAL_BANDS_MULTIPLIER + THERMAL_BANDS_OFFSET)
      (selectMatching "ST_B" image)
  addBandsOverwrite (addBandsOverwrite image optical_bands) thermal_bands

/-- Per-pixel `qa.bitwiseAnd(mask)`: the QA band holds integral flag words;
the engine applies the bitwise and to the integer value of the pixel. -/
def bitwiseAndPixel (m : ℕ) (p : Option ℚ) : Option ℚ :=
  p.map (fun q => (((Int.floor q).toNat &&& m : ℕ) : ℚ))

/-- Per-pixel `.eq(0)`: 1 where the value is zero, 0 elsewhere. -/
def eqZeroPixel (p : Option ℚ) : Option ℚ :=
  p.map (fun v => if v = 0 then 1 else 0)

/-- Per-pixel `.And`: 1 where both operands are nonzero, 0 elsewhere. -/
def andPixel (a b : Option ℚ) : Option ℚ :=
  match a, b with
  | some x, some y => some (if x ≠ 0 ∧ y ≠ 0 then 1 else 0)
  | _, _ => none

/-- Per-pixel `updateMask`: a pixel survives only where the mask is a valid
nonzero value. -/
def updateMaskPixel (mk p : Option ℚ) : Option ℚ :=
  match mk with
  | some m => if m = 0 then none else p
  | none => none

/-- `mask_clouds` (imagery.py): QA_PIXEL bits 3 (cloud shadow) and 5 (cloud)
must both be zero for a pixel to remain valid in every band of the image. -/
def mask_clouds (image : EEImage) : EEImage :=
  let qa := getBand "QA_PIXEL" image
  let mask := List.zipWith andPixel
    (qa.map (fun p => eqZeroPixel (bitwiseAndPixel CLOUD_SHADOW_BIT_MASK p)))
    (qa.map (fun p => eqZeroPixel (bitwiseAndPixel CLOUDS_BIT_MASK p)))
  image.map (fun b => (b.1, List.zipWith updateMaskPixel mask b.2))

/-- Insert into a sorted list of rationals. -/
def insertSorted (x : ℚ) : List ℚ → List ℚ
  | [] => [x]
  | y :: ys => if x ≤ y then x :: y :: ys else y :: insertSorted x ys

/-- Insertion sort of a list of rationals. -/
def sortQ (l : List ℚ) : List ℚ :=
  l.foldr insertSorted []

/-- Modelled from the spec: the engine's median reducer over the valid
observations at one pixel location; no observation leaves the pixel as
no-data, an even count takes the mean of the two middle values. -/
def medianOf (l : List ℚ) : Option ℚ :=
  let s := sortQ l
  if s.length = 0 then none
  else if s.length % 2 = 1 then s.get? (s.length / 2)
  else
    match s.get? (s.length / 2 - 1), s.get? (s.length / 2) with
    | some a, some b => some ((a + b) / 2)
    | _, _ => none

/-- Modelled from the spec: `collection.median()` collapses the image stack
to one raster by the per-pixel median across the valid observations at each
location; the band layout follows the (shared) layout of the stack. -/
def medianComposite (collection : List EEImage) : EEImage :=
  match collection with
  | [] => []
  | first :: _ =>
    first.map (fun b =>
      (b.1, (List.range b.2.length).map (fun i =>
        medianOf (collection.filterMap (fun img => (getBand b.1 img).getD i none)))))

/-- The engine calls observable from outside the pipeline: the collection
size query, the median composite reduction, and the region-statistics
reductions. -/
inductive ReducerKind where
  | min
  | max
  | mean
  | stdDev
deriving DecidableEq, Repr

inductive EngineCall where
  | sizeCall : EngineCall
  | medianCall : EngineCall
  | reduceCall : ReducerKind → EngineCall
deriving DecidableEq, Repr

/-- Whether an engine call is a region-statistics reduction. -/
def isReduceCall : EngineCall → Bool
  | .reduceCall _ => true
  | _ => false

/-- The error dictionary returned by `get_median_composite` when the
filtered collection is empty. -/
def noImageryFound : ErrorDict :=
  ⟨"No imagery found",
   "No Landsat 8 images found for the specified date range and location"⟩

/-- `get_median_composite` (imagery.py): filter the raw collection by date
window and AOI footprint, apply scale factors and cloud masking per image,
fail with `noImageryFound` if no image remains, otherwise build the median
composite.  `inWindow` and `intersectsAoi` stand for the engine's
`filterDate`/`filterBounds` predicates; the second component records the
engine calls issued. -/
def get_median_composite (raw : List EEImage) (inWindow intersectsAoi : EEImage → Bool) :
    Except ErrorDict EEImage × List EngineCall :=
  let collection :=
    (((raw.filter inWindow).filter intersectsAoi).map apply_scale_factors).map mask_clouds
  let count := collection.length
  if count = 0 then
    (.error noImageryFound, [.sizeCall])
  else
    (.ok (medianComposite collection), [.sizeCall, .medianCall])

/-! ### Index derivation chain (`app/lib/earth_engine/calculations.py`) -/

/-- Modelled from the spec: the engine's `normalizedDifference` computes
`(a - b) / (a + b)` per pixel and propagates pixels with a zero denominator
as no-data rather than dividing by zero. -/
def normalizedDifferencePixel (a b : Option ℚ) : Option ℚ :=
  match a, b with
  | some x, some y => if x + y = 0 then none else some ((x - y) / (x + y))
  | _, _ => none

/-- `calculate_ndvi`: NDVI = (NIR − Red) / (NIR + Red) from the fixed bands
SR_B5 (NIR) and SR_B4 (Red), renamed to a single NDVI band. -/
def calculate_ndvi (image : EEImage) : EEImage :=
  [("NDVI",
    List.zipWith normalizedDifferencePixel (getBand "SR_B5" image) (getBand "SR_B4" image))]

/-- Per-pixel fractional vegetation:
`ndvi.subtract(min).divide(max - min).pow(FV_POWER)`.  Modelled from the
spec: the engine's division by a zero constant propagates no-data. -/
def fvPixel (p : Option ℚ) (ndvi_min ndvi_max : ℚ) : Option ℚ :=
  p.bind (fun x =>
    if ndvi_max - ndvi_min = 0 then none
    else some (((x - ndvi_min) / (ndvi_max - ndvi_min)) ^ FV_POWER))

/-- `calculate_fractional_vegetation`: FV = ((NDVI − min) / (max − min))²
per pixel, renamed to an FV band. -/
def calculate_fractional_vegetation (ndvi : EEImage) (ndvi_min ndvi_max : ℚ) : EEImage :=
  [("FV", (getBand "NDVI" ndvi).map (fun p => fvPixel p ndvi_min ndvi_max))]

/-- Per-pixel emissivity: `fv.multiply(EM_MULTIPLIER).add(EM_OFFSET)`. -/
def emPixel (p : Option ℚ) : Option ℚ :=
  p.map (fun v => v * EM_MULTIPLIER + EM_OFFSET)

/-- `calculate_emissivity`: EM = FV × 0.004 + 0.986 per pixel. -/
def calculate_emissivity (fv : EEImage) : EEImage :=
  [("EM", (getBand "FV" fv).map emPixel)]

/-- Modelled from the spec: the engine's `log(em)` inside an expression is
the natural logarithm, defined only for positive values; non-positive
pixels propagate as no-data. -/
noncomputable def logPixel (p : Option ℚ) : Option ℝ :=
  p.bind (fun v => if v ≤ 0 then none else some (Real.log v))

/-- Per-pixel LST, the expression
`(tb / (1 + ((11.5 * (tb / 14380)) * log(em)))) - 273.15` of
`calculate_lst`; a zero denominator propagates as no-data (modelled from
the spec's zero-division rule). -/
noncomputable def lstPixel (tb em : Option ℚ) : Option ℝ :=
  match tb, logPixel em with
  | some t, some lg =>
    if 1 + 11.5 * ((t : ℝ) / 14380) * lg = 0 then none
    else some ((t : ℝ) / (1 + 11.5 * ((t : ℝ) / 14380) * lg) - 273.15)
  | _, _ => none

/-- `calculate_lst`: select the thermal band ST_B10 and evaluate the LST
expression against the emissivity image, producing an LST band in degrees
Celsius. -/
noncomputable def calculate_lst (image : EEImage) (em : EEImage) : RImage :=
  [("LST", List.zipWith lstPixel (getBand "ST_B10" image) (getBand "EM" em))]

/-- Per-pixel UHI: `lst.subtract(lst_mean).divide(lst_std)`; the division by
a zero standard deviation propagates as no-data (modelled from the spec's
zero-division rule). -/
noncomputable def uhiPixel (p : Option ℝ) (lst_mean lst_std : ℚ) : Option ℝ :=
  p.bind (fun x => if lst_std = 0 then none else some ((x - lst_mean) / lst_std))

/-- `calculate_uhi`: UHI = (LST − mean) / std per pixel. -/
noncomputable def calculate_uhi (lst : RImage) (lst_mean lst_std : ℚ) : RImage :=
  [("UHI", (getRBand "LST" lst).map (fun p => uhiPixel p lst_mean lst_std))]

/-- Per-pixel UTFVI: `lst.subtract(lst_mean).divide(lst)`; a pixel with
LST = 0 propagates as no-data (modelled from the spec's zero-division
rule). -/
noncomputable def utfviPixel (p : Option ℝ) (lst_mean : ℚ) : Option ℝ :=
  p.bind (fun x => if x = 0 then none else some ((x - lst_mean) / x))

/-- `calculate_utfvi`: UTFVI = (LST − mean) / LST per pixel. -/
noncomputable def calculate_utfvi (lst : RImage) (lst_mean : ℚ) : RImage :=
  [("UTFVI", (getRBand "LST" lst).map (fun p => utfviPixel p lst_mean))]

/-- The engine's `reduceRegion(...).values().get(0).getInfo()` round trip on
an optical-stage image over the fixed AOI: either the requested scalar or a
raised exception message. -/
abbrev ReduceQ := EEImage → ReducerKind → Except String ℚ

/-- The same engine round trip on a real-valued (LST-stage) image. -/
abbrev ReduceR := RImage → ReducerKind → Except String ℚ

/-- `calculate_ndvi_stats`: reduce the NDVI image with the `min` and then
the `max` reducer; any raised exception is caught and surfaced as the NDVI
statistics error dictionary.  The second component records the region
reductions actually issued (an exception aborts the `try` block, so a `min`
failure means `max` is never called). -/
def calculate_ndvi_stats (reduce : ReduceQ) (ndvi : EEImage) :
    Except ErrorDict (ℚ × ℚ) × List EngineCall :=
  match reduce ndvi ReducerKind.min with
  | .error e =>
    (.error ⟨"Failed to calculate NDVI statistics", e⟩, [.reduceCall .min])
  | .ok ndvi_min =>
    match reduce ndvi ReducerKind.max with
    | .error e =>
      (.error ⟨"Failed to calculate NDVI statistics", e⟩,
       [.reduceCall .min, .reduceCall .max])
    | .ok ndvi_max =>
      (.ok (ndvi_min, ndvi_max), [.reduceCall .min, .reduceCall .max])

/-- `calculate_lst_stats`: reduce the LST image with the `mean` and then the
`stdDev` reducer; any raised exception is caught and surfaced as the LST
statistics error dictionary. -/
def calculate_lst_stats (reduce : ReduceR) (lst : RImage) :
    Except ErrorDict (ℚ × ℚ) × List EngineCall :=
  match reduce lst ReducerKind.mean with
  | .error e =>
    (.error ⟨"Failed to calculate LST statistics", e⟩, [.reduceCall .mean])
  | .ok lst_mean =>
    match reduce lst ReducerKind.stdDev with
    | .error e =>
      (.error ⟨"Failed to calculate LST statistics", e⟩,
       [.reduceCall .mean, .reduceCall .stdDev])
    | .ok lst_std =>
      (.ok (lst_mean, lst_std), [.reduceCall .mean, .reduceCall .stdDev])

/-- The output record of `process_all_indices`: the four index rasters plus
the two statistic pairs. -/
structure IndexResults where
  ndvi : EEImage
  lst : RImage
  uhi : RImage
  utfvi : RImage
  lst_mean : ℚ
  lst_std : ℚ
  ndvi_min : ℚ
  ndvi_max : ℚ

/-- `process_all_indices`: the strict sequential chain
NDVI → NDVI stats → FV → EM → LST → LST stats → UHI/UTFVI.  A statistics
error aborts the chain at once and is returned with no results.  The second
component records the region reductions issued. -/
noncomputable def process_all_indices (reduceQ : ReduceQ) (reduceR : ReduceR)
    (image : EEImage) : Except ErrorDict IndexResults × List EngineCall :=
  let ndvi := calculate_ndvi image
  match calculate_ndvi_stats reduceQ ndvi with
  | (.error err, tr1) => (.error err, tr1)
  | (.ok (ndvi_min, ndvi_max), tr1) =>
    let fv := calculate_fractional_vegetation ndvi ndvi_min ndvi_max
    let em := calculate_emissivity fv
    let lst := calculate_lst image em
    match calculate_lst_stats reduceR lst with
    | (.error err, tr2) => (.error err, tr1 ++ tr2)
    | (.ok (lst_mean, lst_std), tr2) =>
      let uhi := calculate_uhi lst lst_mean lst_std
      let utfvi := calculate_utfvi lst lst_mean
      (.ok ⟨ndvi, lst, uhi, utfvi, lst_mean, lst_std, ndvi_min, ndvi_max⟩,
       tr1 ++ tr2)

/-! ### Layer assembler (`app/lib/earth_engine/visualization.py`) -/

/-- Visualization parameters of a map layer (`app/models/schemas.py`). -/
structure VisualizationParams where
  min : ℚ
  max : ℚ
  palette : List String
deriving DecidableEq, Repr

/-- Data for a single map layer (`app/models/schemas.py`). -/
structure LayerData where
  tile_url : String
  visualization : VisualizationParams
  name : String
  description : String
deriving DecidableEq, Repr

/-- `get_visualization_params`: the static per-index visualization spec;
an unknown layer type reads as the empty dictionary (`none`). -/
def get_visualization_params (layer_type : String) : Option VisualizationParams :=
  if layer_type = "ndvi" then some ⟨NDVI_MIN, NDVI_MAX, NDVI_PALETTE⟩
  else if layer_type = "lst" then some ⟨LST_MIN, LST_MAX, LST_PALETTE⟩
  else if layer_type = "uhi" then some ⟨UHI_MIN, UHI_MAX, UHI_PALETTE⟩
  else if layer_type = "utfvi" then some ⟨UTFVI_MIN, UTFVI_MAX, UTFVI_PALETTE⟩
  else none

/-- `get_layer_descriptions`: the static human-readable name/description
lookup table, four entries. -/
def get_layer_descriptions : List (String × (String × String)) :=
  [("ndvi",
    ("NDVI",
     "Vegetation health and density. Higher values (green) indicate healthier vegetation.")),
   ("lst",
    ("Land Surface Temperature",
     "Surface temperature in degrees Celsius. Cooler areas are blue, warmer areas are red.")),
   ("uhi",
    ("Urban Heat Index",
     "Relative heat concentration compared to city average. Shows urban heat island effects.")),
   ("utfvi",
    ("Urban Thermal Field Variance Index",
     "Temperature comfort level classification for urban areas."))]

/-- The engine's `getMapId`/tile-fetcher capability (`generate_tile_url`):
a tile URL for an image and visualization spec, or `none` on failure. -/
abbrev TileGen := RImage → VisualizationParams → Option String

/-- `create_layer_data`: look up the static visualization spec, request a
tile URL, and attach the static name and description.  (The description
table carries exactly the keys of the visualization table, so the default
of the description lookup is unreachable.) -/
def create_layer_data (tileGen : TileGen) (image : RImage) (layer_type : String) :
    Except ErrorDict LayerData :=
  match get_visualization_params layer_type with
  | none => .error ⟨"Invalid layer type", "Unknown layer: " ++ layer_type⟩
  | some vis_params =>
    match tileGen image vis_params with
    | none =>
      .error ⟨"Failed to generate tile URL", "Could not create tiles for " ++ layer_type⟩
    | some tile_url =>
      let nd := (assocLookup layer_type get_layer_descriptions).getD ("", "")
      .ok ⟨tile_url, vis_params, nd.1, nd.2⟩

/-- The fixed iteration order of `create_all_layers`. -/
def fourIndexNames : List String := ["ndvi", "lst", "uhi", "utfvi"]

/-- The error dictionary returned when an index is absent from the chain
output. -/
def missingIndexError (layer_type : String) : ErrorDict :=
  ⟨"Missing index", "Index " ++ layer_type ++ " not found in results"⟩

/-- The loop body of `create_all_layers`: walk the index names in order,
abort on the first missing index or layer failure, and accumulate the
layers otherwise. -/
def createAllLayersLoop (tileGen : TileGen) (indices : List (String × RImage)) :
    List String → List (String × LayerData) → Except ErrorDict (List (String × LayerData))
  | [], layers => .ok layers
  | layer_type :: rest, layers =>
    match assocLookup layer_type indices with
    | none => .error (missingIndexError layer_type)
    | some img =>
      match create_layer_data tileGen img layer_type with
      | .error e => .error e
      | .ok layer_data =>
        createAllLayersLoop tileGen indices rest (layers ++ [(layer_type, layer_data)])

/-- `create_all_layers`: LayerData for all of ndvi, lst, uhi, utfvi, or a
single error with no partial layer set. -/
def create_all_layers (tileGen : TileGen) (indices : List (String × RImage)) :
    Except ErrorDict (List (String × LayerData)) :=
  createAllLayersLoop tileGen indices fourIndexNames []

/-- The first of the four index names absent from the chain output, if
any. -/
def firstMissing (indices : List (String × RImage)) : Option String :=
  fourIndexNames.find? (fun t => (assocLookup t indices).isNone)

/-! ### Route-level pipeline (`app/api/routes/imagery.py`, past validation) -/

/-- The statistics block of the response (`app/models/schemas.py`). -/
structure Statistics where
  lst_mean : ℚ
  lst_std : ℚ
  ndvi_min : ℚ
  ndvi_max : ℚ
deriving DecidableEq, Repr

/-- View a rational-valued band as a real-valued one (for handing the NDVI
raster, a plain engine image in the source, to the layer assembler). -/
noncomputable def toRBand (b : Band) : RBand :=
  b.map (Option.map (fun (q : ℚ) => (q : ℝ)))

/-- View a rational-valued image as a real-valued one. -/
noncomputable def toRImage (img : EEImage) : RImage :=
  img.map (fun b => (b.1, toRBand b.2))

/-- The `process_imagery` route after request validation: build the median
composite, derive the indices and statistics, assemble the four layers, and
return layers plus statistics; any stage error is surfaced verbatim and
aborts the remaining stages.  The second component records the engine calls
issued. -/
noncomputable def process_imagery (raw : List EEImage)
    (inWindow intersectsAoi : EEImage → Bool)
    (reduceQ : ReduceQ) (reduceR : ReduceR) (tileGen : TileGen) :
    Except ErrorDict (List (String × LayerData) × Statistics) × List EngineCall :=
  match get_median_composite raw inWindow intersectsAoi with
  | (.error e, tr) => (.error e, tr)
  | (.ok median_image, tr) =>
    match process_all_indices reduceQ reduceR median_image with
    | (.error e, tr2) => (.error e, tr ++ tr2)
    | (.ok results, tr2) =>
      let indices :=
        [("ndvi", toRImage results.ndvi), ("lst", results.lst),
         ("uhi", results.uhi), ("utfvi", results.utfvi)]
      match create_all_layers tileGen indices with
      | .error e => (.error e, tr ++ tr2)
      | .ok layers =>
        (.ok (layers, ⟨results.lst_mean, results.lst_std,
                       results.ndvi_min, results.ndvi_max⟩),
         tr ++ tr2)

/-! ### Stub engines and fixtures used by concrete runs -/

/-- A stub engine whose `min` region reduction raises. -/
def engFailMin : ReduceQ := fun _ r =>
  match r with
  | .min => .error "engine fault"
  | _ => .ok 0

/-- A stub engine whose `max` region reduction raises. -/
def engFailMax : ReduceQ := fun _ r =>
  match r with
  | .max => .error "engine fault"
  | _ => .ok 0

/-- A stub engine where every region reduction raises a generic fault. -/
def genericFaultReduce : ReduceQ := fun _ _ => .error "engine timeout"

/-- A region-statistics table returning zero for every reducer. -/
def zeroStat : ReducerKind → ℚ := fun _ => 0

/-- A stub engine for LST-stage reductions that always succeeds. -/
def okReduceR : ReduceR := fun _ _ => .ok 0

/-- Modelled from the spec: the engine's `reduceRegion` with a `maxPixels`
ceiling — a region whose pixel count exceeds `MAX_PIXELS` makes the call
raise rather than truncate the sample; otherwise the requested statistic is
returned. -/
def budgetedReduce (pixelCount : ℕ) (stat : ReducerKind → ℚ) : ReduceQ :=
  fun _ r =>
    if MAX_PIXELS < pixelCount then
      .error "Image.reduceRegion: Too many pixels in the region."
    else .ok (stat r)

/-- A tile generator that always succeeds. -/
def tileGenOk : TileGen := fun _ _ => some "https://earthengine.tiles/example"

/-- A chain output with all four index rasters present (empty grids). -/
def fourEmptyIndices : List (String × RImage) :=
  [("ndvi", []), ("lst", []), ("uhi", []), ("utfvi", [])]

/-- A chain output missing the lst raster. -/
def threeIndices : List (String × RImage) :=
  [("ndvi", []), ("uhi", []), ("utfvi", [])]

/-- The NDVI layer produced by `create_all_layers tileGenOk fourEmptyIndices`. -/
def sampleNdviLayer : LayerData :=
  ⟨"https://earthengine.tiles/example", ⟨NDVI_MIN, NDVI_MAX, NDVI_PALETTE⟩,
   "NDVI",
   "Vegetation health and density. Higher values (green) indicate healthier vegetation."⟩

/-- The full layer mapping produced by
`create_all_layers tileGenOk fourEmptyIndices`. -/
def sampleLayers : List (String × LayerData) :=
  [("ndvi", sampleNdviLayer),
   ("lst",
    ⟨"https://earthengine.tiles/example", ⟨LST_MIN, LST_MAX, LST_PALETTE⟩,
     "Land Surface Temperature",
     "Surface temperature in degrees Celsius. Cooler areas are blue, warmer areas are red."⟩),
   ("uhi",
    ⟨"https://earthengine.tiles/example", ⟨UHI_MIN, UHI_MAX, UHI_PALETTE⟩,
     "Urban Heat Index",
     "Relative heat concentration compared to city average. Shows urban heat island effects."⟩),
   ("utfvi",
    ⟨"https://earthengine.tiles/example", ⟨UTFVI_MIN, UTFVI_MAX, UTFVI_PALETTE⟩,
     "Urban Thermal Field Variance Index",
     "Temperature comfort level classification for urban areas."⟩)]

/-- The value the LST expression takes at the spec's regression scenario
TB = 300 K, EM = 0.99. -/
noncomputable def lstScenarioValue : ℝ :=
  ((300 : ℚ) : ℝ) /
    (1 + 11.5 * (((300 : ℚ) : ℝ) / 14380) * Real.log ((99/100 : ℚ) : ℝ)) - 273.15

/-! ## Theorems -/

/-- C3: for every AOI and date window whose filtered collection is empty,
`get_median_composite` fails with the no-imagery error before the median
composite reduction, and the whole route pipeline issues neither a median
call nor any region-statistics reduction call. -/
theorem noImageryFastFail (raw : List EEImage) (inWindow intersectsAoi : EEImage → Bool)
    (reduceQ : ReduceQ) (reduceR : ReduceR) (tileGen : TileGen)
    (h : (raw.filter inWindow).filter intersectsAoi = []) :
    get_median_composite raw inWindow intersectsAoi = (.error noImageryFound, [.sizeCall]) ∧
    process_imagery raw inWindow intersectsAoi reduceQ reduceR tileGen =
      (.error noImageryFound, [.sizeCall]) ∧
    EngineCall.medianCall ∉
      (process_imagery raw inWindow intersectsAoi reduceQ reduceR tileGen).2 ∧
    (process_imagery raw inWindow intersectsAoi reduceQ reduceR tileGen).2.countP
      isReduceCall = 0 := by
  have h1 : get_median_composite raw inWindow intersectsAoi =
      (.error noImageryFound, [.sizeCall]) := by
    simp [get_median_composite, h]
  have h2 : process_imagery raw inWindow intersectsAoi reduceQ reduceR tileGen =
      (.error noImageryFound, [.sizeCall]) := by
    unfold process_imagery
    rw [h1]
  refine ⟨h1, h2, ?_, ?_⟩
  · rw [h2]; simp [isReduceCall]
  · rw [h2]; simp [isReduceCall]

theorem noImageryFastFail_witness :
    get_median_composite [] (fun _ => true) (fun _ => true) =
      (.error noImageryFound, [.sizeCall]) ∧
    process_imagery [] (fun _ => true) (fun _ => true)
      (fun _ _ => .ok 0) (fun _ _ => .ok 0) (fun _ _ => none) =
      (.error noImageryFound, [.sizeCall]) ∧
    EngineCall.medianCall ∉
      (process_imagery [] (fun _ => true) (fun _ => true)
        (fun _ _ => .ok 0) (fun _ _ => .ok 0) (fun _ _ => none)).2 ∧
    (process_imagery [] (fun _ => true) (fun _ => true)
      (fun _ _ => .ok 0) (fun _ _ => .ok 0) (fun _ _ => none)).2.countP
      isReduceCall = 0 :=
  noImageryFastFail [] (fun _ => true) (fun _ => true)
    (fun _ _ => .ok 0) (fun _ _ => .ok 0) (fun _ _ => none) rfl

/-- C6: every zero-denominator case yields per-pixel no-data rather than a
fault: a degenerate `ndvi_max = ndvi_min` makes every FV pixel no-data and
the dependent EM and LST pixels propagate it; `lst_std = 0` makes every UHI
pixel no-data; an LST pixel equal to zero makes the UTFVI no-data at that
pixel only, nonzero LST pixels keeping their value. -/
theorem zeroDenominatorNoData :
    (∀ (p : Option ℚ) (ndvi_min ndvi_max : ℚ), ndvi_max = ndvi_min →
      fvPixel p ndvi_min ndvi_max = none) ∧
    emPixel none = none ∧
    (∀ tb : Option ℚ, lstPixel tb none = none) ∧
    (∀ (p : Option ℝ) (lst_mean : ℚ), uhiPixel p lst_mean 0 = none) ∧
    (∀ lst_mean : ℚ, utfviPixel (some 0) lst_mean = none) ∧
    (∀ (x : ℝ) (lst_mean : ℚ), x ≠ 0 →
      utfviPixel (some x) lst_mean = some ((x - (lst_mean : ℝ)) / x)) := by
  refine ⟨?_, rfl, ?_, ?_, ?_, ?_⟩
  · intro p mn mx hmm
    subst hmm
    cases p <;> simp [fvPixel]
  · intro tb
    cases tb <;> rfl
  · intro p m
    cases p <;> simp [uhiPixel]
  · intro m
    simp [utfviPixel]
  · intro x m hx
    simp [utfviPixel, hx]

theorem zeroDenominatorNoData_witness :
    fvPixel (some 1) 0 0 = none ∧
    uhiPixel (some 1) 2 0 = none ∧
    utfviPixel (some 0) 3 = none ∧
    utfviPixel (some 2) 3 = some ((2 - ((3 : ℚ) : ℝ)) / 2) :=
  ⟨zeroDenominatorNoData.1 (some 1) 0 0 rfl,
   zeroDenominatorNoData.2.2.2.1 (some 1) 2,
   zeroDenominatorNoData.2.2.2.2.1 3,
   zeroDenominatorNoData.2.2.2.2.2 2 3 (by norm_num)⟩

/-- C7: every valid fractional-vegetation value is a square, hence
nonnegative, so the emissivity `FV * 0.004 + 0.986` is at least
`EM_OFFSET = 0.986 > 0` and the logarithm inside the LST expression is
always defined: its no-data branch is unreachable on valid emissivity
pixels. -/
theorem emissivityPositive (n ndvi_min ndvi_max x : ℚ)
    (h : fvPixel (some n) ndvi_min ndvi_max = some x) :
    0 ≤ x ∧
    emPixel (some x) = some (x * EM_MULTIPLIER + EM_OFFSET) ∧
    EM_OFFSET ≤ x * EM_MULTIPLIER + EM_OFFSET ∧
    0 < x * EM_MULTIPLIER + EM_OFFSET ∧
    logPixel (emPixel (some x)) =
      some (Real.log ((x * EM_MULTIPLIER + EM_OFFSET : ℚ) : ℝ)) := by
  have hx : 0 ≤ x := by
    unfold fvPixel at h
    by_cases hd : ndvi_max - ndvi_min = 0
    · simp [hd] at h
    · simp [hd] at h
      rw [← h]
      simp only [FV_POWER]
      positivity
  have hmul : 0 ≤ x * EM_MULTIPLIER := by
    have : (0 : ℚ) ≤ EM_MULTIPLIER := by norm_num [EM_MULTIPLIER]
    positivity
  have hoff : (0 : ℚ) < EM_OFFSET := by norm_num [EM_OFFSET]
  refine ⟨hx, rfl, by linarith, by linarith, ?_⟩
  have hpos : ¬ (x * EM_MULTIPLIER + EM_OFFSET ≤ 0) := by linarith
  simp [logPixel, emPixel, hpos]

theorem emissivityPositive_witness :
    0 ≤ (1/4 : ℚ) ∧
    emPixel (some (1/4)) = some ((1/4) * EM_MULTIPLIER + EM_OFFSET) ∧
    EM_OFFSET ≤ (1/4 : ℚ) * EM_MULTIPLIER + EM_OFFSET ∧
    0 < (1/4 : ℚ) * EM_MULTIPLIER + EM_OFFSET ∧
    logPixel (emPixel (some (1/4))) =
      some (Real.log (((1/4 : ℚ) * EM_MULTIPLIER + EM_OFFSET : ℚ) : ℝ)) :=
  emissivityPositive 1 0 2 (1/4) (by norm_num [fvPixel, FV_POWER])

/-- C2 counterexample: the NDVI of a pixel with NIR = 0.3 and
Red = -0.2 (a reachable reflectance: a raw digital number of zero rescales
to -0.2) has nonzero band sum 0.1 yet NDVI = 5, outside [-1, 1] — so the
claimed bound does not hold for all pixels with a nonzero band sum. -/
theorem ndviRangeCounterexample :
    calculate_ndvi [("SR_B5", [some (3/10)]), ("SR_B4", [some (-(1/5))])] =
      [("NDVI", [some 5])] ∧
    (3/10 : ℚ) + (-(1/5)) ≠ 0 ∧
    ¬ ((5 : ℚ) ≤ 1) := by
  refine ⟨?_, by norm_num, by norm_num⟩
  simp [calculate_ndvi, getBand, assocLookup]
  norm_num [normalizedDifferencePixel]

/-- C2 amended: NDVI is the normalized difference of SR_B5 (NIR) and SR_B4
(Red); a pixel with NIR + Red = 0 becomes no-data rather than a
divide-by-zero fault; the value lies in [-1, 1] whenever NIR and Red are
nonnegative (as physical reflectances are) with a nonzero sum — but not for
arbitrary band values; and NIR = 0.4, Red = 0.1 yields NDVI = 0.6. -/
theorem ndviFormulaBoundAmended :
    (∀ image : EEImage, calculate_ndvi image =
      [("NDVI", List.zipWith normalizedDifferencePixel
        (getBand "SR_B5" image) (getBand "SR_B4" image))]) ∧
    (∀ x y : ℚ, x + y = 0 → normalizedDifferencePixel (some x) (some y) = none) ∧
    (∀ x y v : ℚ, 0 ≤ x → 0 ≤ y →
      normalizedDifferencePixel (some x) (some y) = some v → -1 ≤ v ∧ v ≤ 1) ∧
    normalizedDifferencePixel (some (4/10)) (some (1/10)) = some (6/10) := by
  refine ⟨fun _ => rfl, ?_, ?_, ?_⟩
  · intro x y h
    simp [normalizedDifferencePixel, h]
  · intro x y v hx hy h
    by_cases hs : x + y = 0
    · simp [normalizedDifferencePixel, hs] at h
    · simp [normalizedDifferencePixel, hs] at h
      have hpos : 0 < x + y := lt_of_le_of_ne (by linarith) (Ne.symm hs)
      subst h
      constructor
      · rw [le_div_iff₀ hpos]
        linarith
      · rw [div_le_one hpos]
        linarith
  · norm_num [normalizedDifferencePixel]

theorem ndviFormulaBoundAmended_witness :
    -1 ≤ (6/10 : ℚ) ∧ (6/10 : ℚ) ≤ 1 :=
  ndviFormulaBoundAmended.2.2.1 (4/10) (1/10) (6/10) (by norm_num) (by norm_num)
    (by norm_num [normalizedDifferencePixel])

/-- Every error surfaced by `calculate_ndvi_stats` carries the NDVI-stage
error kind, whichever reducer faulted. -/
theorem ndviStatsErrorKind (reduce : ReduceQ) (ndvi : EEImage) (e : ErrorDict)
    (tr : List EngineCall) (h : calculate_ndvi_stats reduce ndvi = (.error e, tr)) :
    e.error = "Failed to calculate NDVI statistics" := by
  unfold calculate_ndvi_stats at h
  cases h1 : reduce ndvi ReducerKind.min with
  | error s => rw [h1] at h; injection h with h h'; injection h with h; rw [← h]
  | ok mn =>
    rw [h1] at h
    cases h2 : reduce ndvi ReducerKind.max with
    | error s => rw [h2] at h; injection h with h h'; injection h with h; rw [← h]
    | ok mx => rw [h2] at h; injection h with h h'; cases h

/-- Every error surfaced by `calculate_lst_stats` carries the LST-stage
error kind, whichever reducer faulted. -/
theorem lstStatsErrorKind (reduce : ReduceR) (lst : RImage) (e : ErrorDict)
    (tr : List EngineCall) (h : calculate_lst_stats reduce lst = (.error e, tr)) :
    e.error = "Failed to calculate LST statistics" := by
  unfold calculate_lst_stats at h
  cases h1 : reduce lst ReducerKind.mean with
  | error s => rw [h1] at h; injection h with h h'; injection h with h; rw [← h]
  | ok mn =>
    rw [h1] at h
    cases h2 : reduce lst ReducerKind.stdDev with
    | error s => rw [h2] at h; injection h with h h'; injection h with h; rw [← h]
    | ok mx => rw [h2] at h; injection h with h h'; cases h

/-- C4 counterexample: a failing `min` reduction and a failing `max`
reduction surface the very same error dictionary — the error cannot
identify which reducer kind faulted (the traces show that the offending
reducers differ). -/
theorem statsErrorAnonymous :
    (calculate_ndvi_stats engFailMin []).1 =
      .error ⟨"Failed to calculate NDVI statistics", "engine fault"⟩ ∧
    (calculate_ndvi_stats engFailMax []).1 =
      .error ⟨"Failed to calculate NDVI statistics", "engine fault"⟩ ∧
    (calculate_ndvi_stats engFailMin []).1 = (calculate_ndvi_stats engFailMax []).1 ∧
    (calculate_ndvi_stats engFailMin []).2 = [.reduceCall .min] ∧
    (calculate_ndvi_stats engFailMax []).2 = [.reduceCall .min, .reduceCall .max] :=
  ⟨rfl, rfl, rfl, rfl, rfl⟩

/-- C4 amended: any region-statistics failure aborts the chain immediately
and surfaces an error identifying the failing statistics stage (NDVI or
LST) together with the engine diagnostic, and no results are returned; the
error does not, however, identify the individual reducer kind.  A failing
first (`min`) reduction in particular returns at once, before the `max`
reduction is ever issued. -/
theorem statsFailureAborts :
    (∀ (reduceQ : ReduceQ) (reduceR : ReduceR) (image : EEImage) (err : ErrorDict)
        (tr : List EngineCall),
      process_all_indices reduceQ reduceR image = (.error err, tr) →
      err.error = "Failed to calculate NDVI statistics" ∨
      err.error = "Failed to calculate LST statistics") ∧
    (∀ (reduceQ : ReduceQ) (reduceR : ReduceR) (image : EEImage) (s : String),
      reduceQ (calculate_ndvi image) ReducerKind.min = .error s →
      process_all_indices reduceQ reduceR image =
        (.error ⟨"Failed to calculate NDVI statistics", s⟩, [.reduceCall .min])) := by
  constructor
  · intro reduceQ reduceR image err tr h
    simp only [process_all_indices] at h
    split at h
    · rename_i err1 tr1 heq
      injection h with h h'
      injection h with h
      subst h
      exact Or.inl (ndviStatsErrorKind _ _ _ _ heq)
    · rename_i mn mx tr1 heq
      split at h
      · rename_i err2 tr2 heq2
        injection h with h h'
        injection h with h
        subst h
        exact Or.inr (lstStatsErrorKind _ _ _ _ heq2)
      · injection h with h h'
        cases h
  · intro reduceQ reduceR image s h
    simp only [process_all_indices, calculate_ndvi_stats]
    rw [h]

theorem statsFailureAborts_witness :
    process_all_indices engFailMin okReduceR [] =
      (.error ⟨"Failed to calculate NDVI statistics", "engine fault"⟩,
       [.reduceCall .min]) :=
  statsFailureAborts.2 engFailMin okReduceR [] "engine fault" rfl

/-- C5 counterexample: exceeding the pixel ceiling surfaces exactly the
same error kind as a generic engine fault — "Failed to calculate NDVI
statistics" — not a distinct budget-exceeded kind; only the opaque detail
string differs. -/
theorem budgetErrorNotDistinct :
    (calculate_ndvi_stats (budgetedReduce (MAX_PIXELS + 1) zeroStat) []).1 =
      .error ⟨"Failed to calculate NDVI statistics",
              "Image.reduceRegion: Too many pixels in the region."⟩ ∧
    (calculate_ndvi_stats genericFaultReduce []).1 =
      .error ⟨"Failed to calculate NDVI statistics", "engine timeout"⟩ := by
  constructor
  · have hb : MAX_PIXELS < MAX_PIXELS + 1 := Nat.lt_succ_self _
    simp [calculate_ndvi_stats, budgetedReduce, hb]
  · rfl

/-- C5 amended: a region reduction whose pixel count exceeds the
`MAX_PIXELS` ceiling is a defined failure — the engine raises and the
wrapper returns an error rather than truncated statistics — but the
surfaced error carries the generic statistics-failure kind, with the budget
overrun visible only in the diagnostic detail. -/
theorem budgetExceededDefinedFailure (pixelCount : ℕ) (stat : ReducerKind → ℚ)
    (img : EEImage) (h : MAX_PIXELS < pixelCount) :
    calculate_ndvi_stats (budgetedReduce pixelCount stat) img =
      (.error ⟨"Failed to calculate NDVI statistics",
               "Image.reduceRegion: Too many pixels in the region."⟩,
       [.reduceCall .min]) := by
  simp [calculate_ndvi_stats, budgetedReduce, h]

theorem budgetExceededDefinedFailure_witness :
    calculate_ndvi_stats (budgetedReduce (MAX_PIXELS + 1) zeroStat) [] =
      (.error ⟨"Failed to calculate NDVI statistics",
               "Image.reduceRegion: Too many pixels in the region."⟩,
       [.reduceCall .min]) :=
  budgetExceededDefinedFailure (MAX_PIXELS + 1) zeroStat [] (Nat.lt_succ_self _)

/-- Bounds for the natural log of 0.99 from `log x ≤ x - 1`. -/
theorem log99_bounds :
    -(1/99) ≤ Real.log ((99 : ℝ)/100) ∧ Real.log ((99 : ℝ)/100) ≤ -(1/100) := by
  constructor
  · have h1 : Real.log ((100 : ℝ)/99) ≤ (100 : ℝ)/99 - 1 :=
      Real.log_le_sub_one_of_pos (by norm_num)
    have h2 : Real.log ((99 : ℝ)/100) = -Real.log ((100 : ℝ)/99) := by
      rw [← Real.log_inv]
      norm_num
    rw [h2]
    have : (100 : ℝ)/99 - 1 = 1/99 := by norm_num
    linarith [h1]
  · have h1 : Real.log ((99 : ℝ)/100) ≤ (99 : ℝ)/100 - 1 :=
      Real.log_le_sub_one_of_pos (by norm_num)
    linarith

/-- The LST expression denominator at TB = 300, EM = 0.99 is bounded away
from zero. -/
theorem lstScenarioDenom_bounds :
    (142017/142362 : ℝ) ≤ 1 + 11.5 * ((300 : ℝ)/14380) * Real.log ((99 : ℝ)/100) ∧
    1 + 11.5 * ((300 : ℝ)/14380) * Real.log ((99 : ℝ)/100) ≤ (143455/143800 : ℝ) := by
  have h1 := log99_bounds.1
  have h2 := log99_bounds.2
  constructor <;> nlinarith [h1, h2]

/-- Evaluation of the LST pixel expression at the spec scenario. -/
theorem lstScenario_eval :
    lstPixel (some 300) (some (99/100)) = some lstScenarioValue := by
  have hq : ¬ ((99/100 : ℚ) ≤ 0) := by norm_num
  have hcast : (((99/100 : ℚ)) : ℝ) = (99 : ℝ)/100 := by norm_num
  have hcast3 : (((300 : ℚ)) : ℝ) = (300 : ℝ) := by norm_num
  have hD := lstScenarioDenom_bounds
  have hne : 1 + 11.5 * ((((300 : ℚ)) : ℝ) / 14380) * Real.log (((99/100 : ℚ)) : ℝ) ≠ 0 := by
    rw [hcast, hcast3]
    intro hcontra
    rw [hcontra] at hD
    have := hD.1
    norm_num at this
  simp only [lstPixel, logPixel, hq, if_false, Option.some_bind]
  rw [if_neg hne]
  rfl

/-- The LST value at the spec scenario lies between 27.57 and 27.58 °C. -/
theorem lstScenarioValue_bounds :
    (27.57 : ℝ) ≤ lstScenarioValue ∧ lstScenarioValue ≤ (27.58 : ℝ) := by
  have hcast : (((99/100 : ℚ)) : ℝ) = (99 : ℝ)/100 := by norm_num
  have hcast3 : (((300 : ℚ)) : ℝ) = (300 : ℝ) := by norm_num
  have hD := lstScenarioDenom_bounds
  have hpos : (0 : ℝ) < 1 + 11.5 * ((300 : ℝ)/14380) * Real.log ((99 : ℝ)/100) := by
    have := hD.1
    nlinarith
  unfold lstScenarioValue
  rw [hcast, hcast3]
  constructor
  · have hdiv : (300.72 : ℝ) ≤
        300 / (1 + 11.5 * ((300 : ℝ)/14380) * Real.log ((99 : ℝ)/100)) := by
      rw [le_div_iff₀ hpos]
      nlinarith [hD.2]
    linarith
  · have hdiv : 300 / (1 + 11.5 * ((300 : ℝ)/14380) * Real.log ((99 : ℝ)/100)) ≤
        (300.73 : ℝ) := by
      rw [div_le_iff₀ hpos]
      nlinarith [hD.1]
    linarith

/-- C1 counterexample: at the spec scenario TB = 300 K, EM = 0.99 the LST
expression evaluates to ≈ 27.57 °C, more than one degree away from the
spec's asserted ≈ 28.87 °C. -/
theorem lstScenarioNot2887 :
    lstPixel (some 300) (some (99/100)) = some lstScenarioValue ∧
    1 < |lstScenarioValue - 28.87| := by
  refine ⟨lstScenario_eval, ?_⟩
  have hb := lstScenarioValue_bounds
  rw [abs_sub_comm, abs_of_pos (by linarith)]
  linarith

/-- C1 amended: for every thermal brightness temperature TB and emissivity
EM > 0, any value the LST computation produces equals
TB / (1 + (11.5·TB/14380)·ln EM) − 273.15; at the scenario TB = 300,
EM = 0.99 the result is defined and approximately 27.58 °C (not the spec's
28.87 °C). -/
theorem lstFormulaAmended :
    (∀ (t e : ℚ) (r : ℝ), 0 < e → lstPixel (some t) (some e) = some r →
      r = (t : ℝ) / (1 + (11.5 * (t : ℝ) / 14380) * Real.log ((e : ℝ))) - 273.15) ∧
    (lstPixel (some 300) (some (99/100)) = some lstScenarioValue ∧
     |lstScenarioValue - 27.58| ≤ 1/100) := by
  refine ⟨?_, lstScenario_eval, ?_⟩
  · intro t e r he h
    have hq : ¬ (e ≤ 0) := not_le.mpr he
    simp only [lstPixel, logPixel, hq, if_false, Option.some_bind] at h
    by_cases hd : 1 + 11.5 * ((t : ℝ) / 14380) * Real.log ((e : ℝ)) = 0
    · rw [if_pos hd] at h
      cases h
    · rw [if_neg hd] at h
      injection h with h
      rw [← h]
      have hassoc : 11.5 * ((t : ℝ) / 14380) = 11.5 * (t : ℝ) / 14380 := by ring
      rw [hassoc]
  · have hb := lstScenarioValue_bounds
    rw [abs_of_nonpos (by linarith)]
    linarith

theorem lstFormulaAmended_witness :
    lstScenarioValue =
      ((300 : ℚ) : ℝ) /
        (1 + (11.5 * ((300 : ℚ) : ℝ) / 14380) * Real.log (((99/100 : ℚ)) : ℝ)) - 273.15 :=
  lstFormulaAmended.1 300 (99/100) lstScenarioValue (by norm_num) lstScenario_eval

/-- A successfully created layer carries exactly the static visualization
spec of its index name. -/
theorem createLayerDataVis (tileGen : TileGen) (img : RImage) (t : String) (ld : LayerData)
    (h : create_layer_data tileGen img t = .ok ld) :
    get_visualization_params t = some ld.visualization := by
  simp only [create_layer_data] at h
  split at h
  · cases h
  · rename_i vp hv
    split at h
    · cases h
    · rename_i url hurl
      injection h with h
      rw [hv, ← h]

/-- A successful pass of the assembler loop appends exactly the remaining
index names to the accumulated layer names. -/
theorem createLayersLoopOkNames (tileGen : TileGen) (indices : List (String × RImage)) :
    ∀ (names : List String) (acc layers : List (String × LayerData)),
      createAllLayersLoop tileGen indices names acc = .ok layers →
      layers.map Prod.fst = acc.map Prod.fst ++ names := by
  intro names
  induction names with
  | nil =>
    intro acc layers h
    simp only [createAllLayersLoop] at h
    injection h with h
    rw [← h]
    simp
  | cons t rest ih =>
    intro acc layers h
    simp only [createAllLayersLoop] at h
    split at h
    · cases h
    · rename_i img himg
      split at h
      · cases h
      · rename_i ld hld
        have hres := ih (acc ++ [(t, ld)]) layers h
        rw [hres]
        simp

/-- The assembler loop never succeeds while one of the names it visits is
absent from the chain output. -/
theorem createLayersLoopMissingNotOk (tileGen : TileGen) (indices : List (String × RImage)) :
    ∀ (names : List String) (acc : List (String × LayerData)) (t : String),
      t ∈ names → assocLookup t indices = none →
      ∀ layers, createAllLayersLoop tileGen indices names acc ≠ .ok layers := by
  intro names
  induction names with
  | nil => intro acc t ht _ layers _; simp at ht
  | cons hd rest ih =>
    intro acc t ht hnone layers h
    simp only [createAllLayersLoop] at h
    split at h
    · cases h
    · rename_i img himg
      split at h
      · cases h
      · rename_i ld hld
        have htr : t ∈ rest := by
          rcases List.mem_cons.mp ht with heq | h2
          · subst heq; rw [hnone] at himg; cases himg
          · exact h2
        exact ih (acc ++ [(hd, ld)]) t htr hnone layers h

/-- With a total tile generator, the assembler loop fails with the
missing-index error of the first absent name it visits. -/
theorem createLayersLoopFirstMissing (tileGen : TileGen) (indices : List (String × RImage))
    (htg : ∀ i v, (tileGen i v).isSome = true) :
    ∀ (names : List String) (acc : List (String × LayerData)) (t : String),
      (∀ n ∈ names, (get_visualization_params n).isSome = true) →
      names.find? (fun n => (assocLookup n indices).isNone) = some t →
      createAllLayersLoop tileGen indices names acc = .error (missingIndexError t) := by
  intro names
  induction names with
  | nil => intro acc t _ hf; simp at hf
  | cons hd rest ih =>
    intro acc t hvis hf
    cases hl : assocLookup hd indices with
    | none =>
      have hthd : hd = t := by
        simp [List.find?, hl] at hf
        exact hf
      subst hthd
      simp [createAllLayersLoop, hl]
    | some img =>
      have hf2 : rest.find? (fun n => (assocLookup n indices).isNone) = some t := by
        simpa [List.find?, hl] using hf
      have hv : (get_visualization_params hd).isSome = true :=
        hvis hd (List.mem_cons_self hd rest)
      obtain ⟨vp, hvp⟩ := Option.isSome_iff_exists.mp hv
      obtain ⟨url, hurl⟩ := Option.isSome_iff_exists.mp (htg img vp)
      have hc : create_layer_data tileGen img hd =
          .ok ⟨url, vp, ((assocLookup hd get_layer_descriptions).getD ("", "")).1,
               ((assocLookup hd get_layer_descriptions).getD ("", "")).2⟩ := by
        simp only [create_layer_data, hvp, hurl]
      simp only [createAllLayersLoop, hl, hc]
      exact ih _ t (fun n hn => hvis n (List.mem_cons_of_mem hd hn)) hf2

/-- C8: the assembler either returns layers for exactly the four index
names ndvi, lst, uhi, utfvi, or fails as a whole with no layer set; when
one of the four names is absent from the chain output (and the tile backend
itself is healthy) the failure is the missing-index error naming the first
absent index, never a placeholder layer. -/
theorem layerAssemblerComplete (tileGen : TileGen) (indices : List (String × RImage)) :
    (∀ layers, create_all_layers tileGen indices = .ok layers →
      layers.map Prod.fst = fourIndexNames) ∧
    (∀ t, firstMissing indices = some t →
      ∀ layers, create_all_layers tileGen indices ≠ .ok layers) ∧
    ((∀ i v, (tileGen i v).isSome = true) →
      ∀ t, firstMissing indices = some t →
      assocLookup t indices = none ∧
      create_all_layers tileGen indices = .error (missingIndexError t)) := by
  refine ⟨?_, ?_, ?_⟩
  · intro layers h
    have hres := createLayersLoopOkNames tileGen indices fourIndexNames [] layers h
    simpa using hres
  · intro t hf layers
    have ht : t ∈ fourIndexNames := List.mem_of_find?_eq_some hf
    have hnone : assocLookup t indices = none := by
      have hp := List.find?_some hf
      simpa using hp
    exact createLayersLoopMissingNotOk tileGen indices fourIndexNames [] t ht hnone layers
  · intro htg t hf
    have hnone : assocLookup t indices = none := by
      have hp := List.find?_some hf
      simpa using hp
    refine ⟨hnone, ?_⟩
    refine createLayersLoopFirstMissing tileGen indices htg fourIndexNames [] t ?_ hf
    intro n hn
    fin_cases hn <;> rfl

theorem layerAssemblerComplete_witness :
    assocLookup "lst" threeIndices = none ∧
    create_all_layers tileGenOk threeIndices = .error (missingIndexError "lst") :=
  (layerAssemblerComplete tileGenOk threeIndices).2.2 (fun _ _ => rfl) "lst" rfl

/-- Layers accumulated by the assembler loop all carry the static
visualization spec of their index name. -/
theorem createLayersLoopVis (tileGen : TileGen) (indices : List (String × RImage)) :
    ∀ (names : List String) (acc layers : List (String × LayerData)),
      (∀ t ld, (t, ld) ∈ acc → get_visualization_params t = some ld.visualization) →
      createAllLayersLoop tileGen indices names acc = .ok layers →
      ∀ t ld, (t, ld) ∈ layers → get_visualization_params t = some ld.visualization := by
  intro names
  induction names with
  | nil =>
    intro acc layers hacc h
    simp only [createAllLayersLoop] at h
    injection h with h
    subst h
    exact hacc
  | cons hd rest ih =>
    intro acc layers hacc h
    simp only [createAllLayersLoop] at h
    split at h
    · cases h
    · rename_i img himg
      split at h
      · cases h
      · rename_i ld hld
        refine ih (acc ++ [(hd, ld)]) layers ?_ h
        intro t ld2 hmem
        rcases List.mem_append.mp hmem with hmem2 | hmem2
        · exact hacc t ld2 hmem2
        · have hpair : (t, ld2) = (hd, ld) := by simpa using hmem2
          injection hpair with h1 h2
          subst h1
          subst h2
          exact createLayerDataVis tileGen img t ld2 hld

/-- C9: every layer the assembler returns carries the static per-index
visualization spec, independent of the images, the tile backend and (a
fortiori) any per-request region statistics; in particular the NDVI layer
always displays on [-1, 1] with the fixed blue-white-green palette. -/
theorem vizParamsStatic (tileGen : TileGen) (indices : List (String × RImage))
    (layers : List (String × LayerData))
    (h : create_all_layers tileGen indices = .ok layers) :
    (∀ t ld, (t, ld) ∈ layers → get_visualization_params t = some ld.visualization) ∧
    (∀ ld, ("ndvi", ld) ∈ layers →
      ld.visualization = ⟨-1, 1, ["blue", "white", "green"]⟩) := by
  have hmain := createLayersLoopVis tileGen indices fourIndexNames [] layers
    (by intro t ld hmem; simp at hmem) h
  refine ⟨hmain, ?_⟩
  intro ld hld
  have hv := hmain "ndvi" ld hld
  have hconst : get_visualization_params "ndvi" =
      some ⟨-1, 1, ["blue", "white", "green"]⟩ := rfl
  rw [hconst] at hv
  injection hv with hv
  exact hv.symm

theorem vizParamsStatic_witness :
    create_all_layers tileGenOk fourEmptyIndices = .ok sampleLayers ∧
    sampleNdviLayer.visualization = ⟨-1, 1, ["blue", "white", "green"]⟩ :=
  ⟨rfl,
   (vizParamsStatic tileGenOk fourEmptyIndices sampleLayers rfl).2 sampleNdviLayer
     (by simp [sampleLayers])⟩

/-- Per-pixel mapping over an image preserves band names and transforms the
band found under each name. -/
theorem assocLookupMapPixels (f : ℚ → ℚ) (l : EEImage) (name : String) :
    assocLookup name (imageMapPixels f l) =
      (assocLookup name l).map (fun b => b.map (Option.map f)) := by
  induction l with
  | nil => rfl
  | cons b rest ih =>
    cases b with
    | mk k v =>
      by_cases hk : k = name
      · simp [imageMapPixels, assocLookup, hk]
      · simp only [imageMapPixels, List.map_cons, assocLookup, hk, if_false] at ih ⊢
        exact ih

/-- Filtering an image by a predicate on the band name either preserves or
removes the band found under each name. -/
theorem assocLookupFilterKey {α : Type} (p : String → Bool) (l : List (String × α))
    (name : String) :
    assocLookup name (l.filter (fun b => p b.1)) =
      if p name = true then assocLookup name l else none := by
  induction l with
  | nil => simp [assocLookup]
  | cons b rest ih =>
    cases b with
    | mk k v =>
      by_cases hpk : p k = true
      · by_cases hk : k = name
        · subst hk
          simp [List.filter_cons, hpk, assocLookup]
        · simp [List.filter_cons, hpk, assocLookup, hk, ih]
      · by_cases hk : k = name
        · subst hk
          simp only [Bool.not_eq_true] at hpk
          simp [List.filter_cons, hpk, assocLookup, ih]
        · simp only [Bool.not_eq_true] at hpk
          simp [List.filter_cons, hpk, assocLookup, hk, ih]

/-- A name found in the first part of an appended image is found there in
the whole. -/
theorem assocLookupAppendSome {α : Type} (l1 l2 : List (String × α)) (name : String)
    (v : α) (h : assocLookup name l1 = some v) :
    assocLookup name (l1 ++ l2) = some v := by
  induction l1 with
  | nil => cases h
  | cons b rest ih =>
    cases b with
    | mk k w =>
      by_cases hk : k = name
      · simp only [assocLookup, hk, if_true] at h ⊢
        simpa using h
      · simp only [List.cons_append, assocLookup, hk, if_false] at h ⊢
        exact ih h

/-- A name absent from the first part of an appended image is looked up in
the second. -/
theorem assocLookupAppendNone {α : Type} (l1 l2 : List (String × α)) (name : String)
    (h : assocLookup name l1 = none) :
    assocLookup name (l1 ++ l2) = assocLookup name l2 := by
  induction l1 with
  | nil => rfl
  | cons b rest ih =>
    cases b with
    | mk k w =>
      by_cases hk : k = name
      · simp [assocLookup, hk] at h
      · simp only [List.cons_append, assocLookup, hk, if_false] at h ⊢
        exact ih h

/-- Lookup through the in-place replacement pass of `addBandsOverwrite`. -/
theorem assocLookupReplace (base new : EEImage) (name : String) :
    assocLookup name (base.map (fun b =>
      match assocLookup b.1 new with
      | some nb => (b.1, nb)
      | none => b)) =
      match assocLookup name base with
      | none => none
      | some v =>
        match assocLookup name new with
        | some nb => some nb
        | none => some v := by
  induction base with
  | nil => rfl
  | cons b rest ih =>
    cases b with
    | mk k v =>
      by_cases hk : k = name
      · subst hk
        cases hn : assocLookup k new with
        | some nb => simp [assocLookup, hn]
        | none => simp [assocLookup, hn]
      · cases hn : assocLookup k new with
        | some nb => simp [assocLookup, hn, hk, ih]
        | none => simp [assocLookup, hn, hk, ih]

/-- Lookup through `addBandsOverwrite`: the overwriting bands win, other
names fall through to the base image. -/
theorem addBandsOverwriteLookup (base new : EEImage) (name : String) :
    assocLookup name (addBandsOverwrite base new) =
      match assocLookup name new with
      | some nb => some nb
      | none => assocLookup name base := by
  have hrep := assocLookupReplace base new name
  cases hn : assocLookup name new with
  | some nb =>
    cases hb : assocLookup name base with
    | some v =>
      rw [hb, hn] at hrep
      unfold addBandsOverwrite
      rw [assocLookupAppendSome _ _ _ _ hrep]
    | none =>
      rw [hb] at hrep
      unfold addBandsOverwrite
      rw [assocLookupAppendNone _ _ _ hrep]
      rw [assocLookupFilterKey (fun n => (assocLookup n base).isNone) new name]
      simp [hb, hn]
  | none =>
    cases hb : assocLookup name base with
    | some v =>
      rw [hb, hn] at hrep
      unfold addBandsOverwrite
      rw [assocLookupAppendSome _ _ _ _ hrep]
    | none =>
      rw [hb] at hrep
      unfold addBandsOverwrite
      rw [assocLookupAppendNone _ _ _ hrep]
      rw [assocLookupFilterKey (fun n => (assocLookup n base).isNone) new name]
      simp [hb, hn]

/-- C10: the radiometric correction multiplies every `SR_B`-prefixed
(optical) band by 0.0000275 and adds -0.2, multiplies every
`ST_B`-prefixed (thermal) band by 0.00341802 and adds 149.0, and leaves
every other band — in particular the QA_PIXEL bitmask band — unchanged. -/
theorem scaleFactorsPerBand :
    (∀ (image : EEImage) (name : String),
      assocLookup name (apply_scale_factors image) =
        (if matchesPat "ST_B" name = true then
          (assocLookup name image).map (fun b =>
            b.map (Option.map (fun v => v * THERMAL_BANDS_MULTIPLIER + THERMAL_BANDS_OFFSET)))
        else if matchesPat "SR_B" name = true then
          (assocLookup name image).map (fun b =>
            b.map (Option.map (fun v => v * OPTICAL_BANDS_MULTIPLIER + OPTICAL_BANDS_OFFSET)))
        else assocLookup name image)) ∧
    (∀ image : EEImage,
      assocLookup "QA_PIXEL" (apply_scale_factors image) =
        assocLookup "QA_PIXEL" image) := by
  have hmain : ∀ (image : EEImage) (name : String),
      assocLookup name (apply_scale_factors image) =
        (if matchesPat "ST_B" name = true then
          (assocLookup name image).map (fun b =>
            b.map (Option.map (fun v => v * THERMAL_BANDS_MULTIPLIER + THERMAL_BANDS_OFFSET)))
        else if matchesPat "SR_B" name = true then
          (assocLookup name image).map (fun b =>
            b.map (Option.map (fun v => v * OPTICAL_BANDS_MULTIPLIER + OPTICAL_BANDS_OFFSET)))
        else assocLookup name image) := by
    intro image name
    simp only [apply_scale_factors, selectMatching]
    rw [addBandsOverwriteLookup, addBandsOverwriteLookup]
    rw [assocLookupMapPixels, assocLookupMapPixels]
    rw [assocLookupFilterKey (matchesPat "SR_B") image name,
        assocLookupFilterKey (matchesPat "ST_B") image name]
    by_cases hst : matchesPat "ST_B" name = true <;>
      by_cases hsr : matchesPat "SR_B" name = true <;>
        cases hb : assocLookup name image <;>
          simp [hst, hsr, hb]
  exact ⟨hmain, fun image => by
    have h := hmain image "QA_PIXEL"
    rw [h]
    rfl⟩
